import Mathlib

/-!
Shallow embedding of the change-detection core of `sendupdates.py`
(repository `tinymailman`).

The embedded code is the per-source body of `check_for_updates`
(lines 197-291), the scraping function `get_current_data`
(lines 108-140) and the per-source loop itself (exception
propagation included).  Pandas DataFrames become `Table`s (a column
list plus a row list); a cell value is a `Value` (a string or an
integer, since `pd.read_csv` may parse a numeric column as integers
while a fresh scrape yields strings); `.astype(str)` becomes
`Value.astypeStr`.  File I/O becomes explicit state passing: the
working-tier file (`artifact_data/...csv`) and the durable-tier file
(`permanent_data/...csv`) are each an `Option Table`.  A fallible
storage call is modelled by `Flags`: when a flag is set the
corresponding call raises; an uncaught exception is the `crash`
outcome.  A failed write leaves the file unchanged.
-/

namespace TinyMailman

/-- A cell value: a scraped cell is a string, a value re-read from CSV
may have been parsed as an integer, and pandas pads a short row with
`None`.  `sendupdates.py` compares identifiers via `.astype(str)`. -/
inductive Value where
  | vstr (s : String)
  | vint (n : Int)
  | vnone
deriving Repr, DecidableEq

/-- Python `str(v)` / pandas `.astype(str)` on a cell value. -/
def Value.astypeStr : Value → String
  | .vstr s => s
  | .vint n => toString n
  | .vnone => "None"

/-- A row of a scraped table: the ordered field values. -/
def Row := List Value
deriving Repr, DecidableEq

/-- A pandas DataFrame: ordered column names plus rows. -/
structure Table where
  columns : List String
  rows : List Row
deriving Repr, DecidableEq

/-- Per-source value stored into the `updates` dict by
`check_for_updates`: `None` (NoData), an empty frame with the current
columns (no new entries), the `new_entries` frame, or the whole
`current_data` frame on a first run. -/
inductive UpdateResult where
  | NoData
  | NoChange (columns : List String)
  | NewRows (t : Table)
  | FirstRun (t : Table)
deriving Repr, DecidableEq

/-- Outcome of processing one source: either the loop body completes
with an `UpdateResult` and final working/durable file states, or an
exception escapes the body (`crash`), aborting the run. -/
inductive StepOutcome where
  | ok (result : UpdateResult) (working permanent : Option Table)
  | crash (working permanent : Option Table)
deriving Repr, DecidableEq

/-- Which storage calls raise during the step: reading the previous
CSV (`pd.read_csv`, line 220), writing the working-tier CSV
(`to_csv(data_file)`), writing the durable-tier CSV
(`to_csv(permanent_file)`). -/
structure Flags where
  readFail : Bool
  workWriteFail : Bool
  permWriteFail : Bool
deriving Repr, DecidableEq

/-- All storage calls succeed. -/
def Flags.none : Flags := ⟨false, false, false⟩

/-- Index of the first column named `c` (how `df[c]` selects a column). -/
def findCol (t : Table) (c : String) : Nat := t.columns.findIdx (· == c)

/-- The string form of the field of `r` at column index `i`. -/
def idStrAt (i : Nat) (r : Row) : String :=
  (List.getD r i (Value.vstr "")).astypeStr

/-- Column `c` of `t` as strings, in row order: the embedding of
`df[c].astype(str)` (lines 231-232). -/
def colStrings (t : Table) (c : String) : List String :=
  t.rows.map (idStrAt (findCol t c))

/-- Line 235, `new_ids = current_ids - previous_ids`: identifier
strings of `current` that do not occur among those of `previous`.
Python uses a set; only membership in the result matters. -/
def newIds (current previous : Table) (idCol : String) : List String :=
  (colStrings current idCol).filter
    (fun s => !((colStrings previous idCol).contains s))

/-- Line 239,
`new_entries = current_data[current_data[id_column].astype(str).isin(new_ids)]`:
the rows of `current`, in order, whose identifier string is among
`new_ids`. -/
def newEntries (current previous : Table) (idCol : String) : List Row :=
  current.rows.filter
    (fun r => (newIds current previous idCol).contains
      (idStrAt (findCol current idCol) r))

/-- Lines 269-278 and (identically) 282-291: write `current` to the
working tier, then to the durable tier, then record the whole table
as the update.  These writes are outside any `try`, so a failing one
escapes the loop body. -/
def writeBothThenFirstRun (current : Table) (fl : Flags)
    (w p : Option Table) : StepOutcome :=
  if fl.workWriteFail then .crash w p
  else if fl.permWriteFail then .crash (some current) p
  else .ok (.FirstRun current) (some current) (some current)

/-- The `try` block of lines 219-262, together with its `except`
handler (lines 263-278): read the previous CSV, handle a missing
identity column, otherwise diff on identifier strings.  Any exception
inside the `try` falls through to `writeBothThenFirstRun` (the
handler's body). -/
def diffAgainst (current previous : Table) (idCol : String) (fl : Flags)
    (w p : Option Table) : StepOutcome :=
  if fl.readFail then writeBothThenFirstRun current fl w p
  else if !(previous.columns.contains idCol) then
    -- lines 223-228: working tier only, then `continue`
    if fl.workWriteFail then writeBothThenFirstRun current fl w p
    else .ok (.FirstRun current) (some current) p
  else if !(newIds current previous idCol).isEmpty then
    -- lines 237-251: new entries found; write working, then durable
    if fl.workWriteFail then writeBothThenFirstRun current fl w p
    else if fl.permWriteFail then writeBothThenFirstRun current fl (some current) p
    else .ok (.NewRows ⟨current.columns, newEntries current previous idCol⟩)
      (some current) (some current)
  else
    -- lines 252-261: no new entries; still write working, then durable
    if fl.workWriteFail then writeBothThenFirstRun current fl w p
    else if fl.permWriteFail then writeBothThenFirstRun current fl (some current) p
    else .ok (.NoChange current.columns) (some current) (some current)

/-- The body of the per-source loop of `check_for_updates`
(lines 197-291) for one source.  `current` is what `get_current_data`
returned, `hasPrev` is `has_previous_data`, `w`/`p` are the contents
of the working-tier and durable-tier files for this source (`none` =
file absent). -/
def checkSourceStep (current : Table) (hasPrev : Bool) (fl : Flags)
    (w p : Option Table) : StepOutcome :=
  if current.rows.isEmpty then .ok .NoData w p
  else
    match current.columns with
    | [] => .ok .NoData w p   -- line 208: `len(current_data.columns) == 0`
    | idCol :: _ =>           -- line 214: `id_column = current_data.columns[0]`
      match hasPrev, w with
      | true, some previous => diffAgainst current previous idCol fl w p
      | _, _ => writeBothThenFirstRun current fl w p

/-- The per-source inputs of one run. -/
structure SourceInput where
  current : Table
  hasPrev : Bool
  flags : Flags
  w : Option Table
  p : Option Table
deriving Repr, DecidableEq

/-- The `for court_name, url in URLS.items()` loop: sources are
processed in order; an exception escaping one body aborts the run
(the flag in the result records the abort), so later sources are not
processed. -/
def runAll : List SourceInput → List UpdateResult × Bool
  | [] => ([], false)
  | s :: rest =>
    match checkSourceStep s.current s.hasPrev s.flags s.w s.p with
    | .ok r _ _ => let (rs, c) := runAll rest; (r :: rs, c)
    | .crash _ _ => ([], true)

/-- The rows an outcome reports as new: the rows of a `NewRows` or
`FirstRun` frame, nothing otherwise. -/
def resultRows : StepOutcome → List Row
  | .ok (.NewRows t) _ _ => t.rows
  | .ok (.FirstRun t) _ _ => t.rows
  | _ => []

/-- `get_current_data` (lines 108-140), abstracted over the fetch: the
input is `none` when the page has no `<table>` (or the request
failed), otherwise the list of `<tr>` rows, each the list of its
`<td>` cell texts.  The code skips the first `<tr>` and keeps
non-empty rows.  `pd.DataFrame(rows, columns=["id", "description"])`
infers the frame width as the longest row's length, pads shorter rows
with `None`, and raises (the handler then returns an empty frame)
when that inferred width differs from the number of column names;
`.query("id != ''")` then drops rows whose `id` cell equals the empty
string (a `None` cell is not equal to it). -/
def get_current_data (page : Option (List (List String))) : Table :=
  match page with
  | Option.none => ⟨[], []⟩
  | some trs =>
    let headers := ["id", "description"]
    let kept := (trs.drop 1).filter (fun r => !r.isEmpty)
    if kept.isEmpty then ⟨headers, []⟩
    else if kept.foldl (fun m r => max m r.length) 0 == headers.length then
      ⟨headers,
        (kept.map (fun r => r.map Value.vstr
            ++ List.replicate (headers.length - r.length) Value.vnone)).filter
          (fun r => r.headD (Value.vstr "") != Value.vstr "")⟩
    else ⟨[], []⟩

/-! Sample tables (the scenario of the spec, section 8). -/

/-- Snapshot after a first run: two cases. -/
def sampleA : Table :=
  ⟨["id", "description"],
    [[Value.vstr "1", Value.vstr "Case A"], [Value.vstr "2", Value.vstr "Case B"]]⟩

/-- The next scrape: the same two cases plus a third. -/
def sampleB : Table :=
  ⟨["id", "description"],
    [[Value.vstr "1", Value.vstr "Case A"], [Value.vstr "2", Value.vstr "Case B"],
     [Value.vstr "3", Value.vstr "Case C"]]⟩

/-- A snapshot whose columns no longer contain the current identity
column `id` (schema drift). -/
def sampleDrifted : Table := ⟨["case_number"], [[Value.vstr "a"]]⟩

/-! Helper lemmas. -/

theorem isEmpty_false_of_ne_nil {α : Type} {l : List α} (h : l ≠ []) :
    l.isEmpty = false := by
  cases l with
  | nil => exact absurd rfl h
  | cons a t => rfl

/-- Diffing a table against itself finds no new identifiers. -/
theorem newIds_self (t : Table) (c : String) : newIds t t c = [] := by
  unfold newIds
  rw [List.filter_eq_nil_iff]
  intro a ha
  simp [ha]

/-- Shape of the step on the named-column diff path (previous snapshot
present, identity column present in it, storage healthy). -/
theorem step_diff_eq (current previous : Table) (p : Option Table)
    (idCol : String) (cs : List String)
    (h1 : current.rows ≠ []) (h2 : current.columns = idCol :: cs)
    (hc : previous.columns.contains idCol = true) :
    checkSourceStep current true Flags.none (some previous) p
      = if !(newIds current previous idCol).isEmpty then
          .ok (.NewRows ⟨current.columns, newEntries current previous idCol⟩)
            (some current) (some current)
        else .ok (.NoChange current.columns) (some current) (some current) := by
  unfold checkSourceStep
  rw [isEmpty_false_of_ne_nil h1, h2]
  simp only [diffAgainst, Flags.none, hc, Bool.not_true, if_neg, if_false,
    Bool.false_eq_true, ite_false]
  rw [← h2]

/-- Shape of the step on the schema-drift path. -/
theorem step_drift_eq (current previous : Table) (p : Option Table)
    (idCol : String) (cs : List String)
    (h1 : current.rows ≠ []) (h2 : current.columns = idCol :: cs)
    (hc : previous.columns.contains idCol = false) :
    checkSourceStep current true Flags.none (some previous) p
      = .ok (.FirstRun current) (some current) p := by
  have hc' : idCol ∉ previous.columns := by simpa using hc
  unfold checkSourceStep
  rw [isEmpty_false_of_ne_nil h1, h2]
  simp [diffAgainst, Flags.none, hc']

/-- Shape of the step when no previous working-tier file exists. -/
theorem step_firstRun_eq (current : Table) (hasPrev : Bool) (p : Option Table)
    (idCol : String) (cs : List String)
    (h1 : current.rows ≠ []) (h2 : current.columns = idCol :: cs) :
    checkSourceStep current hasPrev Flags.none Option.none p
      = .ok (.FirstRun current) (some current) (some current) := by
  unfold checkSourceStep
  rw [isEmpty_false_of_ne_nil h1, h2]
  cases hasPrev <;> simp [writeBothThenFirstRun, Flags.none]

/-- Membership in the reported new rows on the diff path: exactly the
current rows whose identifier string is among `newIds`. -/
theorem resultRows_step_mem (current previous : Table) (p : Option Table)
    (idCol : String) (cs : List String)
    (h1 : current.rows ≠ []) (h2 : current.columns = idCol :: cs)
    (hc : previous.columns.contains idCol = true) (r : Row) :
    r ∈ resultRows (checkSourceStep current true Flags.none (some previous) p) ↔
      r ∈ current.rows ∧
        idStrAt (findCol current idCol) r ∈ newIds current previous idCol := by
  rw [step_diff_eq current previous p idCol cs h1 h2 hc]
  by_cases hnil : newIds current previous idCol = []
  · rw [hnil]
    simp [resultRows, hnil]
  · rw [isEmpty_false_of_ne_nil hnil]
    simp [resultRows, newEntries, List.mem_filter]

/-! Claim theorems. -/

/-- C1: with a previous snapshot whose columns contain the identity
column (the first column of `current`), the step computes the set of
identifier strings of `current` minus those of `previous`, and the
reported new rows are exactly the rows of `current` whose identifier
string lies in that difference.  Comparison is on the string
representation (`Value.astypeStr`), not numeric. -/
theorem check_named_column_diff (current previous : Table) (p : Option Table)
    (idCol : String) (cs : List String)
    (h1 : current.rows ≠ []) (h2 : current.columns = idCol :: cs)
    (hc : previous.columns.contains idCol = true) :
    (∀ s : String,
        s ∈ newIds current previous idCol ↔
          s ∈ colStrings current idCol ∧ s ∉ colStrings previous idCol) ∧
    (∀ r : Row,
        r ∈ resultRows (checkSourceStep current true Flags.none (some previous) p) ↔
          r ∈ current.rows ∧
            idStrAt (findCol current idCol) r ∈ newIds current previous idCol) := by
  refine ⟨fun s => ?_,
    fun r => resultRows_step_mem current previous p idCol cs h1 h2 hc r⟩
  unfold newIds
  rw [List.mem_filter]
  simp

theorem check_named_column_diff_witness :
    (∀ s : String,
        s ∈ newIds sampleB sampleA "id" ↔
          s ∈ colStrings sampleB "id" ∧ s ∉ colStrings sampleA "id") ∧
    (∀ r : Row,
        r ∈ resultRows (checkSourceStep sampleB true Flags.none (some sampleA)
          (some sampleA)) ↔
          r ∈ sampleB.rows ∧
            idStrAt (findCol sampleB "id") r ∈ newIds sampleB sampleA "id") :=
  check_named_column_diff sampleB sampleA (some sampleA) "id" ["description"]
    (by decide) (by decide) (by decide)

/-- C2: diffing a table against a snapshot equal to it yields the
no-change outcome (an empty new-row set), so a row persisted by a
successful run is never reported as new again by the next run over the
same data. -/
theorem check_no_renotification (current : Table) (p : Option Table)
    (idCol : String) (cs : List String)
    (h1 : current.rows ≠ []) (h2 : current.columns = idCol :: cs) :
    checkSourceStep current true Flags.none (some current) p
      = .ok (.NoChange current.columns) (some current) (some current) := by
  have hc : current.columns.contains idCol = true := by rw [h2]; simp
  rw [step_diff_eq current current p idCol cs h1 h2 hc, newIds_self]
  simp

theorem check_no_renotification_witness :
    checkSourceStep sampleB true Flags.none (some sampleB) (some sampleB)
      = .ok (.NoChange sampleB.columns) (some sampleB) (some sampleB) :=
  check_no_renotification sampleB (some sampleB) "id" ["description"]
    (by decide) (by decide)

/-- C3: with no previous snapshot, a non-empty current table yields
the first-run outcome containing every current row, and the current
table is persisted (to both tiers). -/
theorem check_first_run_completeness (current : Table) (hasPrev : Bool)
    (p : Option Table) (idCol : String) (cs : List String)
    (h1 : current.rows ≠ []) (h2 : current.columns = idCol :: cs) :
    checkSourceStep current hasPrev Flags.none Option.none p
      = .ok (.FirstRun current) (some current) (some current) :=
  step_firstRun_eq current hasPrev p idCol cs h1 h2

theorem check_first_run_completeness_witness :
    checkSourceStep sampleA false Flags.none Option.none Option.none
      = .ok (.FirstRun sampleA) (some sampleA) (some sampleA) :=
  check_first_run_completeness sampleA false Option.none "id" ["description"]
    (by decide) (by decide)

/-- C4: when the previous snapshot lacks the identity column, the
result is the first-run outcome over the full current row set and the
working-tier snapshot is replaced (not partially compared) by the
current table, whose columns are the current columns. -/
theorem check_schema_drift (current previous : Table) (p : Option Table)
    (idCol : String) (cs : List String)
    (h1 : current.rows ≠ []) (h2 : current.columns = idCol :: cs)
    (hc : previous.columns.contains idCol = false) :
    checkSourceStep current true Flags.none (some previous) p
      = .ok (.FirstRun current) (some current) p :=
  step_drift_eq current previous p idCol cs h1 h2 hc

theorem check_schema_drift_witness :
    checkSourceStep sampleA true Flags.none (some sampleDrifted)
      (some sampleDrifted)
      = .ok (.FirstRun sampleA) (some sampleA) (some sampleDrifted) :=
  check_schema_drift sampleA sampleDrifted (some sampleDrifted) "id"
    ["description"] (by decide) (by decide) (by decide)

/-- C5: when the fetch failed or returned an empty table, the step
changes no persisted state (both tiers keep their prior contents,
whatever they were and whatever the storage flags) and the update
result is NoData. -/
theorem check_no_data_preserves_state (current : Table) (hasPrev : Bool)
    (fl : Flags) (w p : Option Table) (h : current.rows = []) :
    checkSourceStep current hasPrev fl w p = .ok .NoData w p := by
  unfold checkSourceStep
  rw [h]
  rfl

theorem check_no_data_preserves_state_witness :
    checkSourceStep ⟨["id", "description"], []⟩ true ⟨true, true, true⟩
      (some sampleA) (some sampleB) = .ok .NoData (some sampleA) (some sampleB) :=
  check_no_data_preserves_state ⟨["id", "description"], []⟩ true
    ⟨true, true, true⟩ (some sampleA) (some sampleB) (by decide)

/-- C6 counterexample: when the working-tier write fails for the first
source, the run crashes with no results at all — there is no distinct
ReconcileFailed outcome — and the second source, which on its own
yields a first-run result, is never processed. -/
theorem check_write_failure_counterexample :
    runAll [⟨sampleA, false, ⟨false, true, false⟩, Option.none, Option.none⟩,
            ⟨sampleA, false, Flags.none, Option.none, Option.none⟩]
      = ([], true) ∧
    runAll [⟨sampleA, false, Flags.none, Option.none, Option.none⟩]
      = ([.FirstRun sampleA], false) := by decide

/-- C6 amended: a failure while persisting the new snapshot escapes the
loop body as an uncaught exception (so it is not masked as NoChange),
but no distinct ReconcileFailed outcome exists and the run does not
continue: the remaining sources are not processed. -/
theorem check_write_failure_aborts_run (current : Table) (p : Option Table)
    (rest : List SourceInput) (idCol : String) (cs : List String)
    (h1 : current.rows ≠ []) (h2 : current.columns = idCol :: cs) :
    checkSourceStep current false ⟨false, true, false⟩ Option.none p
      = .crash Option.none p ∧
    runAll (⟨current, false, ⟨false, true, false⟩, Option.none, p⟩ :: rest)
      = ([], true) := by
  have hstep : checkSourceStep current false ⟨false, true, false⟩ Option.none p
      = .crash Option.none p := by
    unfold checkSourceStep
    rw [isEmpty_false_of_ne_nil h1, h2]
    rfl
  exact ⟨hstep, by simp [runAll, hstep]⟩

theorem check_write_failure_aborts_run_witness :
    checkSourceStep sampleA false ⟨false, true, false⟩ Option.none Option.none
      = .crash Option.none Option.none ∧
    runAll [⟨sampleA, false, ⟨false, true, false⟩, Option.none, Option.none⟩]
      = ([], true) :=
  check_write_failure_aborts_run sampleA Option.none [] "id" ["description"]
    (by decide) (by decide)

/-- C7 counterexample: on the schema-drift path the result is FirstRun
yet only the working tier is written — the durable tier still holds the
old snapshot, not the current table. -/
theorem check_dual_tier_counterexample :
    checkSourceStep sampleA true Flags.none (some sampleDrifted)
      (some sampleDrifted)
      = .ok (.FirstRun sampleA) (some sampleA) (some sampleDrifted) ∧
    some sampleDrifted ≠ some sampleA := by decide

/-- C7 amended: with healthy storage, the durable tier is written after
the working tier on NewRows and NoChange (working-tier write mandatory)
and on FirstRun arising from absent history or from a failing read of
the previous snapshot; on FirstRun arising from schema drift only the
working tier is written and the durable tier keeps its prior
contents. -/
theorem check_dual_tier_amended (current previous : Table) (p : Option Table)
    (idCol : String) (cs : List String)
    (h1 : current.rows ≠ []) (h2 : current.columns = idCol :: cs) :
    (previous.columns.contains idCol = true →
      ∃ res, checkSourceStep current true Flags.none (some previous) p
        = .ok res (some current) (some current)) ∧
    (previous.columns.contains idCol = false →
      checkSourceStep current true Flags.none (some previous) p
        = .ok (.FirstRun current) (some current) p) ∧
    checkSourceStep current true Flags.none Option.none p
      = .ok (.FirstRun current) (some current) (some current) ∧
    checkSourceStep current true ⟨true, false, false⟩ (some previous) p
      = .ok (.FirstRun current) (some current) (some current) := by
  refine ⟨fun hc => ?_,
    fun hc => step_drift_eq current previous p idCol cs h1 h2 hc,
    step_firstRun_eq current true p idCol cs h1 h2, ?_⟩
  · rw [step_diff_eq current previous p idCol cs h1 h2 hc]
    by_cases hnil : newIds current previous idCol = []
    · exact ⟨.NoChange current.columns, by rw [hnil]; simp⟩
    · exact ⟨.NewRows ⟨current.columns, newEntries current previous idCol⟩,
        by rw [isEmpty_false_of_ne_nil hnil]; simp⟩
  · unfold checkSourceStep
    rw [isEmpty_false_of_ne_nil h1, h2]
    rfl

theorem check_dual_tier_amended_witness :
    ∃ res, checkSourceStep sampleB true Flags.none (some sampleA) (some sampleA)
      = .ok res (some sampleB) (some sampleB) :=
  (check_dual_tier_amended sampleB sampleA (some sampleA) "id" ["description"]
    (by decide) (by decide)).1 (by decide)

/-- C8: the reported new-row list always preserves the relative order
of the rows of the current table: it is a sublist of `current.rows`
(stable selection, never re-sorted), for every input and every storage
behavior. -/
theorem check_order_preservation (current : Table) (hasPrev : Bool)
    (fl : Flags) (w p : Option Table) :
    (resultRows (checkSourceStep current hasPrev fl w p)).Sublist
      current.rows := by
  unfold checkSourceStep diffAgainst writeBothThenFirstRun
  repeat' split
  all_goals
    first
      | exact List.nil_sublist _
      | exact List.Sublist.refl _
      | exact List.filter_sublist _

/-- C9: the scraper keeps only rows whose primary identifier field is
non-empty, and the table it produces carries the fixed column names
`["id", "description"]` whenever it has any rows. -/
theorem get_current_data_filters (page : Option (List (List String))) :
    (∀ r ∈ (get_current_data page).rows, idStrAt 0 r ≠ "") ∧
    ((get_current_data page).rows ≠ [] →
      (get_current_data page).columns = ["id", "description"]) := by
  cases page with
  | none => simp [get_current_data]
  | some trs =>
    simp only [get_current_data]
    split
    · exact ⟨fun r hr => absurd hr (List.not_mem_nil r), fun _ => rfl⟩
    split
    · refine ⟨?_, fun _ => rfl⟩
      intro r hr
      rw [List.mem_filter] at hr
      obtain ⟨hmem, hid⟩ := hr
      rw [List.mem_map] at hmem
      obtain ⟨r0, hr0, rfl⟩ := hmem
      rw [List.mem_filter] at hr0
      have hne : r0 ≠ [] := by
        intro h0
        rw [h0] at hr0
        simpa using hr0.2
      cases r0 with
      | nil => exact absurd rfl hne
      | cons a t =>
        simp only [List.map_cons, List.cons_append, List.headD_cons] at hid
        have ha : a ≠ "" := by
          intro h0
          rw [h0] at hid
          simp at hid
        simpa [idStrAt, Value.astypeStr] using ha
    · exact ⟨fun r hr => absurd hr (List.not_mem_nil r), fun h => absurd rfl h⟩

theorem get_current_data_filters_witness :
    (get_current_data
        (some [["hdr1", "hdr2"], ["1", "A"], [], ["", "B"], ["2"]])).columns
      = ["id", "description"] :=
  (get_current_data_filters
    (some [["hdr1", "hdr2"], ["1", "A"], [], ["", "B"], ["2"]])).2
    (by decide)

/-- C10 (implicit): a current row whose identifier string already
occurs among the previous snapshot's identifier strings is never
reported as new, even if its other fields changed; when every current
identifier is already known, the outcome is NoChange. -/
theorem check_inplace_update_invisible (current previous : Table)
    (p : Option Table) (idCol : String) (cs : List String)
    (h1 : current.rows ≠ []) (h2 : current.columns = idCol :: cs)
    (hc : previous.columns.contains idCol = true) :
    (∀ r ∈ current.rows,
        idStrAt (findCol current idCol) r ∈ colStrings previous idCol →
          r ∉ resultRows (checkSourceStep current true Flags.none
            (some previous) p)) ∧
    ((∀ r ∈ current.rows,
        idStrAt (findCol current idCol) r ∈ colStrings previous idCol) →
      checkSourceStep current true Flags.none (some previous) p
        = .ok (.NoChange current.columns) (some current) (some current)) := by
  constructor
  · intro r hr hseen hmem
    rw [resultRows_step_mem current previous p idCol cs h1 h2 hc r] at hmem
    have hnew := hmem.2
    unfold newIds at hnew
    rw [List.mem_filter] at hnew
    have := hnew.2
    simp at this
    exact this hseen
  · intro hall
    have hnil : newIds current previous idCol = [] := by
      unfold newIds
      rw [List.filter_eq_nil_iff]
      intro s hs
      rw [colStrings, List.mem_map] at hs
      obtain ⟨r, hr, rfl⟩ := hs
      simp [hall r hr]
    rw [step_diff_eq current previous p idCol cs h1 h2 hc, hnil]
    simp

theorem check_inplace_update_invisible_witness :
    checkSourceStep
      ⟨["id", "description"],
        [[Value.vstr "1", Value.vstr "Case A revised"],
         [Value.vstr "2", Value.vstr "Case B"]]⟩
      true Flags.none (some sampleA) (some sampleA)
      = .ok (.NoChange ["id", "description"])
        (some ⟨["id", "description"],
          [[Value.vstr "1", Value.vstr "Case A revised"],
           [Value.vstr "2", Value.vstr "Case B"]]⟩)
        (some ⟨["id", "description"],
          [[Value.vstr "1", Value.vstr "Case A revised"],
           [Value.vstr "2", Value.vstr "Case B"]]⟩) :=
  (check_inplace_update_invisible
    ⟨["id", "description"],
      [[Value.vstr "1", Value.vstr "Case A revised"],
       [Value.vstr "2", Value.vstr "Case B"]]⟩
    sampleA (some sampleA) "id" ["description"]
    (by decide) (by decide) (by decide)).2 (by decide)

end TinyMailman
